import Mathlib

/-!
Verification development for the Space- repository.

The repository consists of two Python dashboards (`src/app.py`,
`src/modules/data_fetchers.py`).  The Multi-Hazard Risk Assessment Engine of
the specification is not present under `src/`, so its components are modelled
here directly from the specification text; the data-fetching and caching code
that does exist under `src/` is embedded from the source.  All real-valued
quantities are modelled as rationals.
-/

namespace SpaceRepo

/-- Clamp a rational into the interval [lo, hi]. -/
def clamp (lo hi x : ℚ) : ℚ := max lo (min hi x)

/-- Modelled from the spec: `EnvironmentalSample` (§3) — one observation of
the four environmental readings.  The class itself is absent from `src/`. -/
structure EnvironmentalSample where
  rainfall_mm : ℚ
  soil_moisture_pct : ℚ
  temperature_c : ℚ
  vegetation_index : ℚ
deriving DecidableEq

/-- Modelled from the spec: sample validation (§4.1) — each field is clamped
to its documented physical range (rainfall ≥ 0, soil moisture 0–100,
temperature −10–55, vegetation index −1–1). -/
def clampSample (s : EnvironmentalSample) : EnvironmentalSample where
  rainfall_mm := max 0 s.rainfall_mm
  soil_moisture_pct := clamp 0 100 s.soil_moisture_pct
  temperature_c := clamp (-10) 55 s.temperature_c
  vegetation_index := clamp (-1) 1 s.vegetation_index

/-- Modelled from the spec: Label Deriver flood predicate (§4.2) —
`rainfall_mm > 40` OR (`rainfall_mm > 25` AND `soil_moisture_pct > 60`),
all comparisons strict.  The Label Deriver is absent from `src/`. -/
def floodLabel (s : EnvironmentalSample) : Bool :=
  decide (40 < s.rainfall_mm) ||
    (decide (25 < s.rainfall_mm) && decide (60 < s.soil_moisture_pct))

/-- Modelled from the spec: Label Deriver drought predicate (§4.2) —
`rainfall_mm < 5` AND `soil_moisture_pct < 25` AND `temperature_c > 30`. -/
def droughtLabel (s : EnvironmentalSample) : Bool :=
  decide (s.rainfall_mm < 5) && decide (s.soil_moisture_pct < 25) &&
    decide (30 < s.temperature_c)

/-- Modelled from the spec: rainfall band of the fallback flood scorer
(§4.4) — `>40 → +60`, else `>25 → +30`, else 0. -/
def floodRainPoints (r : ℚ) : ℚ :=
  if 40 < r then 60 else if 25 < r then 30 else 0

/-- Modelled from the spec: soil-moisture band of the fallback flood scorer
(§4.4) — `>70 → +30`, else `>50 → +15`, else 0. -/
def floodSoilPoints (s : ℚ) : ℚ :=
  if 70 < s then 30 else if 50 < s then 15 else 0

/-- Modelled from the spec: vegetation band of the fallback flood scorer
(§4.4) — `<0.3 → +10`, else 0. -/
def floodVegPoints (v : ℚ) : ℚ :=
  if v < 3/10 then 10 else 0

/-- Modelled from the spec: Fallback Rule Scorer for flood (§4.4) — the
additive band total capped at 98. -/
def fallbackFloodScore (r s v : ℚ) : ℚ :=
  min 98 (floodRainPoints r + floodSoilPoints s + floodVegPoints v)

/-- Modelled from the spec: drought fallback rainfall band (§4.4 fixes only
that drought follows "the analogous additive-band pattern with its own
documented bands and caps"; the concrete band edges mirror the drought label
thresholds of §4.2). -/
def droughtRainPoints (r : ℚ) : ℚ :=
  if r < 5 then 60 else if r < 15 then 30 else 0

/-- Modelled from the spec: drought fallback soil-moisture band (§4.4). -/
def droughtSoilPoints (s : ℚ) : ℚ :=
  if s < 25 then 30 else if s < 40 then 15 else 0

/-- Modelled from the spec: drought fallback temperature band (§4.4). -/
def droughtTempPoints (t : ℚ) : ℚ :=
  if 30 < t then 10 else 0

/-- Modelled from the spec: Fallback Rule Scorer for drought (§4.4) —
additive bands capped at 98, like the flood scorer. -/
def fallbackDroughtScore (r s t : ℚ) : ℚ :=
  min 98 (droughtRainPoints r + droughtSoilPoints s + droughtTempPoints t)

/-- Modelled from the spec: the ordered severity categories (§3, §4.5). -/
inductive Category where
  | LOW
  | MEDIUM
  | HIGH
deriving DecidableEq

/-- Modelled from the spec: Risk Compositor category mapping (§4.5) —
half-open bands with inclusive lower bounds: `< 40 → LOW`,
`[40,70) → MEDIUM`, `>= 70 → HIGH`. -/
def categorize (x : ℚ) : Category :=
  if x < 40 then .LOW else if x < 70 then .MEDIUM else .HIGH

/-- C1: the fallback flood score is the additive band total
(+60 if rainfall > 40 else +30 if rainfall > 25, +30 if soil > 70 else +15 if
soil > 50, +10 if vegetation < 0.3) capped at 98, and on the input
rainfall 50, soil 80, vegetation 0.2 it equals min(98, 60+30+10) = 98. -/
theorem fallbackFlood_additive_bands :
    fallbackFloodScore 50 80 (2/10) = min 98 (60 + 30 + 10) ∧
    fallbackFloodScore 50 80 (2/10) = 98 ∧
    ∀ r s v : ℚ, fallbackFloodScore r s v =
      min 98 ((if 40 < r then (60 : ℚ) else if 25 < r then 30 else 0) +
        (if 70 < s then (30 : ℚ) else if 50 < s then 15 else 0) +
        (if v < 3/10 then (10 : ℚ) else 0)) := by
  refine ⟨?_, ?_, fun r s v => rfl⟩
  · norm_num [fallbackFloodScore, floodRainPoints, floodSoilPoints,
      floodVegPoints]
  · norm_num [fallbackFloodScore, floodRainPoints, floodSoilPoints,
      floodVegPoints]

/-- C2: the composite score is mapped to a category by half-open bands with
inclusive lower bounds — `< 40 → LOW`, `[40,70) → MEDIUM`, `>= 70 → HIGH` —
so exactly 40 gives MEDIUM, exactly 70 gives HIGH and 39.999 gives LOW. -/
theorem categorize_half_open_bands :
    (∀ x : ℚ, x < 40 → categorize x = .LOW) ∧
    (∀ x : ℚ, 40 ≤ x → x < 70 → categorize x = .MEDIUM) ∧
    (∀ x : ℚ, 70 ≤ x → categorize x = .HIGH) ∧
    categorize 40 = .MEDIUM ∧ categorize 70 = .HIGH ∧
    categorize (39999/1000) = .LOW := by
  refine ⟨?_, ?_, ?_, ?_, ?_, ?_⟩
  · intro x hx
    unfold categorize
    rw [if_pos hx]
  · intro x h1 h2
    unfold categorize
    rw [if_neg (not_lt.mpr h1), if_pos h2]
  · intro x hx
    unfold categorize
    rw [if_neg (not_lt.mpr (le_trans (by norm_num) hx)),
      if_neg (not_lt.mpr hx)]
  · norm_num [categorize]
  · norm_num [categorize]
  · norm_num [categorize]

/-- Witness for C2 at concrete boundary inputs. -/
theorem categorize_half_open_bands_witness :
    ((39999/1000 : ℚ) < 40 ∧ categorize (39999/1000) = .LOW) ∧
    ((40 : ℚ) ≤ 40 ∧ (40 : ℚ) < 70 ∧ categorize 40 = .MEDIUM) ∧
    ((70 : ℚ) ≤ 70 ∧ categorize 70 = .HIGH) :=
  ⟨⟨by norm_num, categorize_half_open_bands.1 (39999/1000) (by norm_num)⟩,
    ⟨by norm_num, by norm_num,
      categorize_half_open_bands.2.1 40 le_rfl (by norm_num)⟩,
    ⟨le_rfl, categorize_half_open_bands.2.2.1 70 le_rfl⟩⟩

/-- Modelled from the spec: the configuration-error taxonomy (§7) —
weights not summing to 1.0, or an empty hazard set, detected at
construction time. -/
inductive EngineConfigError where
  | badWeights
  | emptyHazards
deriving DecidableEq

/-- Modelled from the spec: the floating-point tolerance within which the
weight sum must equal 1.0 (§4.5, §8). -/
def WEIGHT_TOL : ℚ := 1/1000000

/-- Modelled from the spec: `RiskWeights`/Risk Compositor state (§3, §4.5) —
a fixed mapping from hazard name to weight. -/
structure Compositor where
  weights : List (String × ℚ)
deriving DecidableEq

/-- Sum of the weights of a hazard-weight mapping. -/
def weightTotal (ws : List (String × ℚ)) : ℚ := (ws.map Prod.snd).sum

/-- Modelled from the spec: Risk Compositor construction (§4.5, §7) — the
weight-sum invariant and the empty-hazard-set check are asserted at
construction time, returning `ConfigurationError` on violation. -/
def mkCompositor (ws : List (String × ℚ)) : Except EngineConfigError Compositor :=
  if ws.isEmpty then .error .emptyHazards
  else if |weightTotal ws - 1| ≤ WEIGHT_TOL then .ok ⟨ws⟩
  else .error .badWeights

/-- Modelled from the spec: the two-hazard configuration of §4.5 —
flood/drought weighted 0.5/0.5. -/
def twoHazardWeights : List (String × ℚ) := [("flood", 1/2), ("drought", 1/2)]

/-- Modelled from the spec: the three-hazard configuration of §4.5 —
flood/drought/heat weighted 0.4/0.3/0.3. -/
def threeHazardWeights : List (String × ℚ) :=
  [("flood", 2/5), ("drought", 3/10), ("heat", 3/10)]

/-- C3: the composite weights of every configured hazard set sum to exactly
1.0 and construction succeeds on them, while constructing a compositor from
weights summing to 0.9 fails with the weight configuration error at
construction time (`mkCompositor` is the construction step). -/
theorem compositor_weight_invariant :
    weightTotal twoHazardWeights = 1 ∧
    weightTotal threeHazardWeights = 1 ∧
    mkCompositor twoHazardWeights = .ok ⟨twoHazardWeights⟩ ∧
    mkCompositor threeHazardWeights = .ok ⟨threeHazardWeights⟩ ∧
    ∀ ws : List (String × ℚ), weightTotal ws = 9/10 →
      mkCompositor ws = .error .badWeights := by
  refine ⟨?_, ?_, ?_, ?_, ?_⟩
  · norm_num [weightTotal, twoHazardWeights]
  · norm_num [weightTotal, threeHazardWeights]
  · norm_num [mkCompositor, weightTotal, twoHazardWeights, WEIGHT_TOL]
  · norm_num [mkCompositor, weightTotal, threeHazardWeights, WEIGHT_TOL]
  · intro ws h
    unfold mkCompositor
    have hne : ws.isEmpty = false := by
      cases ws with
      | nil => norm_num [weightTotal] at h
      | cons a l => rfl
    rw [hne]
    simp only [Bool.false_eq_true, if_false]
    rw [if_neg]
    rw [h, show ((9 : ℚ)/10 - 1) = -(1/10) by norm_num, abs_neg,
      abs_of_nonneg (by norm_num : (0 : ℚ) ≤ 1/10)]
    norm_num [WEIGHT_TOL]

/-- Witness for C3 at a concrete weight list summing to 0.9. -/
theorem compositor_weight_invariant_witness :
    weightTotal [("flood", (9/10 : ℚ))] = 9/10 ∧
    mkCompositor [("flood", (9/10 : ℚ))] = .error .badWeights :=
  ⟨by norm_num [weightTotal], compositor_weight_invariant.2.2.2.2
    [("flood", (9/10 : ℚ))] (by norm_num [weightTotal])⟩

/-- C6: the Label Deriver uses strict-inequality predicates — flood iff
rainfall > 40 or (rainfall > 25 and soil > 60), drought iff rainfall < 5 and
soil < 25 and temperature > 30 — and boundary values are non-events (at
rainfall = 40 with soil at its boundary 60 the flood label is false; at the
drought boundaries rainfall = 5, soil = 25, temperature = 30 the drought
label is false). -/
theorem label_deriver_strict_predicates :
    (∀ s : EnvironmentalSample, floodLabel s = true ↔
      (40 < s.rainfall_mm ∨
        (25 < s.rainfall_mm ∧ 60 < s.soil_moisture_pct))) ∧
    (∀ s : EnvironmentalSample, droughtLabel s = true ↔
      (s.rainfall_mm < 5 ∧ s.soil_moisture_pct < 25 ∧
        30 < s.temperature_c)) ∧
    floodLabel ⟨40, 60, 20, 1/2⟩ = false ∧
    droughtLabel ⟨5, 25, 30, 1/2⟩ = false := by
  refine ⟨?_, ?_, ?_, ?_⟩
  · intro s
    simp [floodLabel]
  · intro s
    simp [droughtLabel, and_assoc]
  · norm_num [floodLabel]
  · norm_num [droughtLabel]

/-- Witness for C6: a concrete sample past the flood thresholds is labelled
a flood event, via the characterization. -/
theorem label_deriver_strict_predicates_witness :
    floodLabel ⟨50, 30, 20, 1/2⟩ = true ∧
    droughtLabel ⟨2, 10, 35, 1/2⟩ = true :=
  ⟨(label_deriver_strict_predicates.1 ⟨50, 30, 20, 1/2⟩).mpr
      (Or.inl (by norm_num)),
    (label_deriver_strict_predicates.2.1 ⟨2, 10, 35, 1/2⟩).mpr
      (by norm_num)⟩

/-- Modelled from the spec: the sigmoid of the Hazard Classifier (§4.3).
The spec fixes only the interface (a linear combination of features passed
through a sigmoid, yielding a probability in [0,1]); the logistic function
is represented by the computable rational sigmoid
x ↦ 1/2 + x / (2·(1+|x|)), which shares the properties the claims rely on
(range within [0,1], monotone, deterministic). -/
def sig (x : ℚ) : ℚ := 1/2 + x / (2 * (1 + |x|))

/-- Modelled from the spec: `HazardModel` (§3) — linear coefficients plus
intercept plus the `ready` flag. -/
structure HazardModel where
  coefs : List ℚ
  intercept : ℚ
  ready : Bool
deriving DecidableEq

/-- Feature vector of a sample, in a fixed order. -/
def features (s : EnvironmentalSample) : List ℚ :=
  [s.rainfall_mm, s.soil_moisture_pct, s.temperature_c, s.vegetation_index]

/-- Dot product of two rational lists (extra entries are ignored). -/
def dotProd : List ℚ → List ℚ → ℚ
  | a :: as, b :: bs => a * b + dotProd as bs
  | _, _ => 0

/-- Modelled from the spec: the classifier scoring function (§4.3) — a pure
function of the sample and the fitted state, returning a probability. -/
def scoreModel (m : HazardModel) (s : EnvironmentalSample) : ℚ :=
  sig (m.intercept + dotProd m.coefs (features s))

/-- Modelled from the spec: the minimum-sample-count degeneracy threshold of
`fit` (§4.3, "fewer than some minimum sample count"). -/
def MIN_SAMPLES : ℕ := 10

/-- All labels in the list belong to the same class. -/
def allSame (labels : List Bool) : Bool :=
  labels.all (fun b => b == labels.headD false)

/-- Mean of a list of rationals (0 for the empty list). -/
def listMean (l : List ℚ) : ℚ :=
  if l.length = 0 then 0 else l.sum / l.length

/-- Modelled from the spec: the deterministic coefficient computation of
`fit` (§4.3).  The spec fixes only determinism and the logistic-regression
interface; the coefficients here are the difference of per-class feature
means (a deterministic, computable stand-in for the numerical fit), with the
intercept centering the overall mean. -/
def fitCoefs (samples : List EnvironmentalSample) (labels : List Bool) :
    List ℚ × ℚ :=
  let pairs := samples.zip labels
  let pos := (pairs.filter (fun p => p.2)).map Prod.fst
  let neg := (pairs.filter (fun p => !p.2)).map Prod.fst
  let meanOf := fun (l : List EnvironmentalSample) (f : EnvironmentalSample → ℚ) =>
    listMean (l.map f)
  let cs := [meanOf pos (·.rainfall_mm) - meanOf neg (·.rainfall_mm),
    meanOf pos (·.soil_moisture_pct) - meanOf neg (·.soil_moisture_pct),
    meanOf pos (·.temperature_c) - meanOf neg (·.temperature_c),
    meanOf pos (·.vegetation_index) - meanOf neg (·.vegetation_index)]
  (cs, -(dotProd cs (features (EnvironmentalSample.mk
    (meanOf samples (·.rainfall_mm)) (meanOf samples (·.soil_moisture_pct))
    (meanOf samples (·.temperature_c)) (meanOf samples (·.vegetation_index))))))

/-- Modelled from the spec: `fit` (§4.3) — never raises; on a degenerate
training set (all labels the same class, fewer samples than the minimum
count, or a sample/label length mismatch standing for a numerical fit
failure) it returns a model with `ready = false` instead of propagating an
error. -/
def fitModel (samples : List EnvironmentalSample) (labels : List Bool) :
    HazardModel :=
  if samples.length < MIN_SAMPLES ∨ labels.length ≠ samples.length ∨
      allSame labels = true then
    { coefs := [], intercept := 0, ready := false }
  else
    { coefs := (fitCoefs samples labels).1,
      intercept := (fitCoefs samples labels).2, ready := true }

/-- Modelled from the spec: per-hazard result of an assessment (§6) — the
score and the `model_backed` flag. -/
structure HazardResult where
  score : ℚ
  model_backed : Bool
deriving DecidableEq

/-- Modelled from the spec: region type of the Advisory Generator (§4.6). -/
inductive RegionType where
  | urban
  | rural
deriving DecidableEq

/-- Modelled from the spec: the Advisory Generator (§4.6) — soil < 20 →
urgent region-specific message, 20 ≤ soil < 40 → monitor message,
soil > 80 and rainfall > 30 → drainage warning, otherwise adequate. -/
def advisoryText (soil rain : ℚ) (region : RegionType) : String :=
  if soil < 20 then
    match region with
    | .urban => "URGENT: enforce water rationing and rainwater harvesting"
    | .rural => "URGENT: activate irrigation and water conservation"
  else if soil < 40 then "Monitor soil moisture and plan irrigation"
  else if 80 < soil ∧ 30 < rain then
    "Flood risk: clear drainage and prepare for runoff"
  else "Soil moisture levels are adequate"

/-- Modelled from the spec: `RiskAssessment` (§3, §6) — per-hazard results,
composite score, severity category and advisory text. -/
structure RiskAssessment where
  flood : HazardResult
  drought : HazardResult
  composite_score : ℚ
  category : Category
  advisory : String
deriving DecidableEq

/-- Modelled from the spec: the engine state of the Assessment Façade (§4.7)
— one model per hazard plus the compositor. -/
structure Engine where
  floodModel : HazardModel
  droughtModel : HazardModel
  comp : Compositor
deriving DecidableEq

/-- Modelled from the spec: per-hazard dispatch of the Assessment Façade
(§4.7) — the classifier is used iff `ready`, otherwise the fallback rule
scorer; either value is clamped to [0,100] before leaving the engine
(§3 invariant). -/
def hazardScoreOf (m : HazardModel) (fallback : ℚ)
    (s : EnvironmentalSample) : HazardResult :=
  if m.ready then
    { score := clamp 0 100 (100 * scoreModel m s), model_backed := true }
  else
    { score := clamp 0 100 fallback, model_backed := false }

/-- Modelled from the spec: the weighted composite of the Risk Compositor
(§4.5) — Σ weight[h] · score[h] over the configured hazard set. -/
def compositeOf (c : Compositor) (score : String → ℚ) : ℚ :=
  (c.weights.map (fun p => p.2 * score p.1)).sum

/-- Modelled from the spec: the Assessment Façade `assess` (§4.7, §6) —
clamp the sample, dispatch each hazard to classifier or fallback, compose,
categorize, and attach the advisory; the composite is clamped to [0,100]
before leaving the engine (§3 invariant). -/
def assess (s0 : EnvironmentalSample) (region : RegionType) (e : Engine) :
    RiskAssessment :=
  let s := clampSample s0
  let fr := hazardScoreOf e.floodModel
    (fallbackFloodScore s.rainfall_mm s.soil_moisture_pct s.vegetation_index) s
  let dr := hazardScoreOf e.droughtModel
    (fallbackDroughtScore s.rainfall_mm s.soil_moisture_pct s.temperature_c) s
  let comp := clamp 0 100 (compositeOf e.comp
    (fun h => if h = "flood" then fr.score
      else if h = "drought" then dr.score else 0))
  { flood := fr, drought := dr, composite_score := comp,
    category := categorize comp,
    advisory := advisoryText s.soil_moisture_pct s.rainfall_mm region }

/-- The clamp never goes below its lower bound. -/
theorem clamp_lb (lo hi x : ℚ) : lo ≤ clamp lo hi x := le_max_left lo _

/-- The clamp never exceeds its upper bound (when the interval is proper). -/
theorem clamp_ub (lo hi x : ℚ) (h : lo ≤ hi) : clamp lo hi x ≤ hi :=
  max_le h (min_le_left _ _)

/-- Every per-hazard result score is a clamped value in [0,100]. -/
theorem hazardScoreOf_bounds (m : HazardModel) (f : ℚ)
    (s : EnvironmentalSample) :
    0 ≤ (hazardScoreOf m f s).score ∧ (hazardScoreOf m f s).score ≤ 100 := by
  unfold hazardScoreOf
  split_ifs <;> exact ⟨clamp_lb 0 100 _, clamp_ub 0 100 _ (by norm_num)⟩

/-- C4: for every input sample and engine state, both per-hazard scores and
the composite score of an assessment lie in [0,100] (they are clamped before
leaving the engine), and the fallback flood score is capped at 98 and hence
never reaches 100. -/
theorem assess_scores_bounded :
    (∀ (s : EnvironmentalSample) (region : RegionType) (e : Engine),
      0 ≤ (assess s region e).flood.score ∧
      (assess s region e).flood.score ≤ 100 ∧
      0 ≤ (assess s region e).drought.score ∧
      (assess s region e).drought.score ≤ 100 ∧
      0 ≤ (assess s region e).composite_score ∧
      (assess s region e).composite_score ≤ 100) ∧
    ∀ r sm v : ℚ, fallbackFloodScore r sm v ≤ 98 ∧
      fallbackFloodScore r sm v < 100 := by
  constructor
  · intro s region e
    simp only [assess]
    refine ⟨(hazardScoreOf_bounds _ _ _).1, (hazardScoreOf_bounds _ _ _).2,
      (hazardScoreOf_bounds _ _ _).1, (hazardScoreOf_bounds _ _ _).2,
      clamp_lb 0 100 _, clamp_ub 0 100 _ (by norm_num)⟩
  · intro r sm v
    have h : fallbackFloodScore r sm v ≤ 98 := min_le_left _ _
    exact ⟨h, lt_of_le_of_lt h (by norm_num)⟩

/-- C5: for every degenerate training set (all labels the same class, or
fewer samples than the minimum count) `fit` does not raise — it is a total
function returning a model with `ready = false` — and every subsequent
assessment built on that model scores the hazard through the fallback rule
scorer and reports `model_backed = false`. -/
theorem degenerate_fit_uses_fallback :
    ∀ (samples : List EnvironmentalSample) (labels : List Bool),
      (allSame labels = true ∨ samples.length < MIN_SAMPLES) →
      (fitModel samples labels).ready = false ∧
      ∀ (s : EnvironmentalSample) (region : RegionType) (dm : HazardModel)
        (c : Compositor),
        (assess s region ⟨fitModel samples labels, dm, c⟩).flood.model_backed
          = false ∧
        (assess s region ⟨fitModel samples labels, dm, c⟩).flood.score =
          clamp 0 100 (fallbackFloodScore (clampSample s).rainfall_mm
            (clampSample s).soil_moisture_pct
            (clampSample s).vegetation_index) := by
  intro samples labels h
  have hready : (fitModel samples labels).ready = false := by
    unfold fitModel
    rw [if_pos (by tauto)]
  refine ⟨hready, ?_⟩
  intro s region dm c
  simp only [assess, hazardScoreOf, hready, Bool.false_eq_true, if_false]
  exact ⟨trivial, trivial⟩

/-- Witness for C5: training on twelve identically-labelled samples yields
an unready model, and an assessment built on it is fallback-backed. -/
theorem degenerate_fit_uses_fallback_witness :
    (allSame (List.replicate 12 true) = true ∨
      (List.replicate 12 (EnvironmentalSample.mk 50 80 20 (1/5))).length
        < MIN_SAMPLES) ∧
    (fitModel (List.replicate 12 (EnvironmentalSample.mk 50 80 20 (1/5)))
      (List.replicate 12 true)).ready = false ∧
    (assess ⟨50, 80, 20, 1/5⟩ .urban
      ⟨fitModel (List.replicate 12 (EnvironmentalSample.mk 50 80 20 (1/5)))
        (List.replicate 12 true),
        ⟨[], 0, false⟩, ⟨twoHazardWeights⟩⟩).flood.model_backed = false :=
  ⟨Or.inl (by decide),
    (degenerate_fit_uses_fallback
      (List.replicate 12 (EnvironmentalSample.mk 50 80 20 (1/5)))
      (List.replicate 12 true) (Or.inl (by decide))).1,
    ((degenerate_fit_uses_fallback
      (List.replicate 12 (EnvironmentalSample.mk 50 80 20 (1/5)))
      (List.replicate 12 true) (Or.inl (by decide))).2
      ⟨50, 80, 20, 1/5⟩ .urban ⟨[], 0, false⟩ ⟨twoHazardWeights⟩).1⟩

/-- C7: the engine is deterministic at the public interface — two `assess`
calls with identical sample, region type and engine state produce identical
`RiskAssessment` values, and the classifier score is a pure function of the
sample and the fitted state. -/
theorem assess_deterministic :
    (∀ (s1 s2 : EnvironmentalSample) (r1 r2 : RegionType) (e1 e2 : Engine),
      s1 = s2 → r1 = r2 → e1 = e2 → assess s1 r1 e1 = assess s2 r2 e2) ∧
    ∀ (m1 m2 : HazardModel) (s1 s2 : EnvironmentalSample),
      m1 = m2 → s1 = s2 → scoreModel m1 s1 = scoreModel m2 s2 := by
  constructor
  · intro s1 s2 r1 r2 e1 e2 hs hr he
    subst hs
    subst hr
    subst he
    rfl
  · intro m1 m2 s1 s2 hm hs
    subst hm
    subst hs
    rfl

/-- Witness for C7 at a concrete sample and engine. -/
theorem assess_deterministic_witness :
    (EnvironmentalSample.mk 50 80 20 (1/5) = EnvironmentalSample.mk 50 80 20 (1/5)) ∧
    assess ⟨50, 80, 20, 1/5⟩ .urban ⟨⟨[], 0, false⟩, ⟨[], 0, false⟩, ⟨twoHazardWeights⟩⟩
      = assess ⟨50, 80, 20, 1/5⟩ .urban
        ⟨⟨[], 0, false⟩, ⟨[], 0, false⟩, ⟨twoHazardWeights⟩⟩ ∧
    scoreModel ⟨[1, 0, 0, 0], 0, true⟩ ⟨50, 80, 20, 1/5⟩
      = scoreModel ⟨[1, 0, 0, 0], 0, true⟩ ⟨50, 80, 20, 1/5⟩ :=
  ⟨rfl,
    assess_deterministic.1 _ _ _ _ _ _ rfl rfl rfl,
    assess_deterministic.2 _ _ _ _ rfl rfl⟩

/-- State of `KenyaDataFetcher`'s cache (src/app.py, `self.cache` and
`self.cache_timestamps`): two dictionaries keyed by cache-key strings,
modelled as association lists where the most recent binding shadows older
ones.  Timestamps are rationals (seconds). -/
structure FetchState (α : Type) where
  cache : List (String × α)
  stamps : List (String × ℚ)

/-- Embeds `KenyaDataFetcher._set_cache` (src/app.py lines 543-546):
`self.cache[key] = data; self.cache_timestamps[key] = time.time()`.
The current time is passed explicitly. -/
def setCache {α : Type} (t : ℚ) (key : String) (data : α)
    (st : FetchState α) : FetchState α :=
  { cache := (key, data) :: st.cache, stamps := (key, t) :: st.stamps }

/-- Embeds `KenyaDataFetcher._get_cached` (src/app.py lines 535-541):
if the key is in the cache, look up its timestamp (defaulting to 0) and
return the cached value when `time.time() - timestamp < max_age`;
otherwise return None. -/
def getCached {α : Type} (t : ℚ) (key : String) (maxAge : ℚ)
    (st : FetchState α) : Option α :=
  match st.cache.lookup key with
  | some v =>
    if t - (st.stamps.lookup key).getD 0 < maxAge then some v else none
  | none => none

/-- C8: the fetcher cache round-trips — after `_set_cache(key, v)`, a
`_get_cached(key, max_age)` with no intervening set for that key (sets for
other keys are allowed) and less than `max_age` seconds elapsed returns
exactly v; `_get_cached` returns None for a key not in the cache and for a
key whose entry is at least `max_age` seconds old. -/
theorem cache_round_trip :
    (∀ (α : Type) (st : FetchState α) (key : String) (v : α) (t0 t1 maxAge : ℚ),
      t1 - t0 < maxAge →
      getCached t1 key maxAge (setCache t0 key v st) = some v) ∧
    (∀ (α : Type) (st : FetchState α) (key key2 : String) (v : α) (v2 : α)
        (t0 t2 t1 maxAge : ℚ),
      key2 ≠ key → t1 - t0 < maxAge →
      getCached t1 key maxAge (setCache t2 key2 v2 (setCache t0 key v st))
        = some v) ∧
    (∀ (α : Type) (st : FetchState α) (key : String) (maxAge t : ℚ),
      st.cache.lookup key = none → getCached t key maxAge st = none) ∧
    (∀ (α : Type) (st : FetchState α) (key : String) (v : α) (ts maxAge t : ℚ),
      st.cache.lookup key = some v → st.stamps.lookup key = some ts →
      maxAge ≤ t - ts → getCached t key maxAge st = none) := by
  refine ⟨?_, ?_, ?_, ?_⟩
  · intro α st key v t0 t1 maxAge h
    simp [getCached, setCache, List.lookup, h]
  · intro α st key key2 v v2 t0 t2 t1 maxAge hk h
    have hbeq : (key == key2) = false := by
      simp [beq_iff_eq]
      exact fun hh => hk hh.symm
    simp [getCached, setCache, List.lookup, hbeq, h]
  · intro α st key maxAge t hnone
    simp [getCached, hnone]
  · intro α st key v ts maxAge t hv hts hage
    simp [getCached, hv, hts]
    linarith

/-- Witness for C8 at concrete keys, values and times. -/
theorem cache_round_trip_witness :
    ((1 : ℚ) - 0 < 3600 ∧
      getCached 1 "gdp_10" 3600
        (setCache 0 "gdp_10" (7 : ℕ) ⟨[], []⟩) = some 7) ∧
    (("population" : String) ≠ "gdp_10" ∧
      getCached 1 "gdp_10" 3600 (setCache 1 "population" 9
        (setCache 0 "gdp_10" (7 : ℕ) ⟨[], []⟩)) = some 7) ∧
    ((⟨[], []⟩ : FetchState ℕ).cache.lookup "gdp_10" = none ∧
      getCached 1 "gdp_10" 3600 (⟨[], []⟩ : FetchState ℕ) = none) ∧
    ((⟨[("gdp_10", 7)], [("gdp_10", 0)]⟩ : FetchState ℕ).cache.lookup "gdp_10"
        = some 7 ∧
      (⟨[("gdp_10", 7)], [("gdp_10", 0)]⟩ : FetchState ℕ).stamps.lookup "gdp_10"
        = some 0 ∧
      (3600 : ℚ) ≤ 5000 - 0 ∧
      getCached 5000 "gdp_10" 3600
        (⟨[("gdp_10", 7)], [("gdp_10", 0)]⟩ : FetchState ℕ) = none) :=
  ⟨⟨by norm_num, cache_round_trip.1 ℕ ⟨[], []⟩ "gdp_10" 7 0 1 3600 (by norm_num)⟩,
    ⟨by decide, cache_round_trip.2.1 ℕ ⟨[], []⟩ "gdp_10" "population" 7 9 0 1 1
      3600 (by decide) (by norm_num)⟩,
    ⟨rfl, cache_round_trip.2.2.1 ℕ ⟨[], []⟩ "gdp_10" 3600 1 rfl⟩,
    ⟨rfl, rfl, by norm_num,
      cache_round_trip.2.2.2 ℕ ⟨[("gdp_10", 7)], [("gdp_10", 0)]⟩ "gdp_10" 7 0
        3600 5000 rfl rfl (by norm_num)⟩⟩

/-- Embeds Python's built-in `round` to an integer (round-half-to-even,
as used by `round(x, 1)` in src/app.py line 684 after scaling by 10). -/
def bankersRound (q : ℚ) : ℤ :=
  if q - ⌊q⌋ < 1/2 then ⌊q⌋
  else if 1/2 < q - ⌊q⌋ then ⌊q⌋ + 1
  else if ⌊q⌋ % 2 = 0 then ⌊q⌋ else ⌊q⌋ + 1

/-- Embeds `round(x, 1)` from src/app.py: round to one decimal place. -/
def roundTo1 (q : ℚ) : ℚ := (bankersRound (10 * q) : ℚ) / 10

/-- One element of the `historical` list built by
`KenyaDataFetcher.fetch_inflation_data` (src/app.py lines 682-687); the
month is kept as its index. -/
structure InflEntry where
  month : ℕ
  rate : ℚ
  core_inflation : ℚ
  food_inflation : ℚ
deriving DecidableEq

/-- Embeds the rate loop of `KenyaDataFetcher.fetch_inflation_data`
(src/app.py lines 672-687): 24 monthly entries with
`rate = 5.8 + 0.5*sin(2*pi*i/12) + uniform(-0.3, 0.3)`, stored as
`round(max(2.0, rate), 1)`.  The sine values and the random draw are not
rational-computable, so they enter as explicit input sequences `seasonal`
(standing for `sin(2*pi*i/12)`) and `draw` (one uniform sample per month);
the claim quantifies over every draw, so no distributional fact is lost. -/
def inflationHistorical (seasonal draw : ℕ → ℚ) : List InflEntry :=
  (List.range 24).map fun i =>
    let rate := 58/10 + (1/2) * seasonal i + draw i
    { month := i, rate := roundTo1 (max 2 rate),
      core_inflation := roundTo1 (rate - 2/10),
      food_inflation := roundTo1 (rate + 12/10) }

/-- Embeds the `current` field of the returned dictionary (src/app.py
line 700): `inflation_rates[-1]`, the last historical entry. -/
def inflationCurrent (seasonal draw : ℕ → ℚ) : Option InflEntry :=
  (inflationHistorical seasonal draw).getLast?

/-- Rounding at one decimal never drops below an even integer bound held by
the argument. -/
theorem bankersRound_ge (q : ℚ) (z : ℤ) (h : (z : ℚ) ≤ q) :
    z ≤ bankersRound q := by
  have hf : z ≤ ⌊q⌋ := Int.le_floor.mpr h
  unfold bankersRound
  split_ifs <;> omega

/-- `round(x, 1)` of a value at least 2 is at least 2. -/
theorem two_le_roundTo1 (q : ℚ) (h : 2 ≤ q) : 2 ≤ roundTo1 q := by
  have h20 : (20 : ℤ) ≤ bankersRound (10 * q) := by
    refine bankersRound_ge _ 20 ?_
    push_cast
    linarith
  have h20q : (20 : ℚ) ≤ (bankersRound (10 * q) : ℚ) := by
    exact_mod_cast h20
  unfold roundTo1
  linarith

/-- C9: for every random draw, every entry of the `historical` list of
`fetch_inflation_data` has a rate of at least 2.0 (the rate is floored via
`round(max(2.0, rate), 1)`), and hence the `current` entry's rate is also at
least 2.0. -/
theorem inflation_rate_floor :
    (∀ (seasonal draw : ℕ → ℚ) (e : InflEntry),
      e ∈ inflationHistorical seasonal draw → 2 ≤ e.rate) ∧
    ∀ (seasonal draw : ℕ → ℚ) (e : InflEntry),
      inflationCurrent seasonal draw = some e → 2 ≤ e.rate := by
  have hmem : ∀ (seasonal draw : ℕ → ℚ) (e : InflEntry),
      e ∈ inflationHistorical seasonal draw → 2 ≤ e.rate := by
    intro seasonal draw e he
    unfold inflationHistorical at he
    rw [List.mem_map] at he
    obtain ⟨i, _, rfl⟩ := he
    exact two_le_roundTo1 _ (le_max_left _ _)
  refine ⟨hmem, ?_⟩
  intro seasonal draw e he
  have he2 : e ∈ (inflationHistorical seasonal draw).getLast? := by
    rw [Option.mem_def]
    exact he
  obtain ⟨hne, rfl⟩ := List.mem_getLast?_eq_getLast he2
  exact hmem seasonal draw _ (List.getLast_mem hne)

/-- Witness for C9 with all perturbations zero: the first historical entry
and the current entry both carry a rate of at least 2. -/
theorem inflation_rate_floor_witness :
    ((⟨0, 58/10, 56/10, 7⟩ : InflEntry) ∈
      inflationHistorical (fun _ => 0) (fun _ => 0) ∧
      2 ≤ ((⟨0, 58/10, 56/10, 7⟩ : InflEntry)).rate) ∧
    (inflationCurrent (fun _ => 0) (fun _ => 0) =
      some ⟨23, 58/10, 56/10, 7⟩ ∧
      2 ≤ ((⟨23, 58/10, 56/10, 7⟩ : InflEntry)).rate) := by
  have h1 : (⟨0, 58/10, 56/10, 7⟩ : InflEntry) ∈
      inflationHistorical (fun _ => 0) (fun _ => 0) := by
    unfold inflationHistorical
    rw [List.mem_map]
    refine ⟨0, by decide, ?_⟩
    norm_num [roundTo1, bankersRound]
  have h2 : inflationCurrent (fun _ => 0) (fun _ => 0) =
      some ⟨23, 58/10, 56/10, 7⟩ := by
    unfold inflationCurrent inflationHistorical
    norm_num [List.range_succ, roundTo1, bankersRound]
  exact ⟨⟨h1, inflation_rate_floor.1 (fun _ => 0) (fun _ => 0) _ h1⟩,
    ⟨h2, inflation_rate_floor.2 (fun _ => 0) (fun _ => 0) _ h2⟩⟩

/-- A value of a mock KNBS dictionary (src/modules/data_fetchers.py lines
34-39): either a number or a list of numbers. -/
inductive KVal where
  | num (q : ℚ)
  | arr (l : List ℚ)
deriving DecidableEq

/-- A KNBS data dictionary, as an association list; the empty list is
Python's empty dict `{}` (falsy). -/
abbrev KData := List (String × KVal)

/-- Embeds `DataFetcher._mock_knbs_data` (src/modules/data_fetchers.py
lines 32-40): the four endpoint mocks, with `mocks.get(endpoint, {})`
yielding the empty dict for any other endpoint. -/
def mockKnbsData (endpoint : String) : KData :=
  if endpoint = "population" then
    [("total", .num 47500000), ("urban", .num (28/100)),
      ("rural", .num (72/100))]
  else if endpoint = "gdp" then
    [("value", .num (955/10)), ("growth", .num (52/10)), ("year", .num 2025)]
  else if endpoint = "cpi" then
    [("value", .num (58/10)),
      ("trend", .arr [57/10, 59/10, 61/10, 58/10])]
  else if endpoint = "poverty" then
    [("rate", .num (361/10)), ("rural_poverty", .num (401/10)),
      ("urban_poverty", .num (294/10))]
  else []

/-- Embeds the cache key of `get_knbs_data` (src/modules/data_fetchers.py
line 14): the f-string `knbs_<endpoint>_<params>`, with `str(params)`
already rendered to a string. -/
def knbsCacheKey (endpoint params : String) : String :=
  "knbs_" ++ endpoint ++ "_" ++ params

/-- The body of the `try` block of `get_knbs_data` (src/modules/
data_fetchers.py lines 19-30): compute the mock data, cache it, and return
it; if anything in the block raises (modelled by the explicit `fail` flag,
since the CacheManager imported from the absent `cache_manager` module may
fail), the `except` arm returns None. -/
def knbsTryBody (fail : Bool) (endpoint key : String)
    (st : List (String × KData)) : Option KData × List (String × KData) :=
  if fail then (none, st)
  else (some (mockKnbsData endpoint), (key, mockKnbsData endpoint) :: st)

/-- Embeds `DataFetcher.get_knbs_data` (src/modules/data_fetchers.py lines
12-30).  The CacheManager (whose module is absent from `src/`) is modelled
as a plain key-value store over association lists; Python's `if cached:`
takes the cached branch only when the hit is truthy, i.e. a non-empty
dict. -/
def getKnbsData (fail : Bool) (endpoint params : String)
    (st : List (String × KData)) : Option KData × List (String × KData) :=
  match st.lookup (knbsCacheKey endpoint params) with
  | some d =>
    if d.isEmpty then knbsTryBody fail endpoint (knbsCacheKey endpoint params) st
    else (some d, st)
  | none => knbsTryBody fail endpoint (knbsCacheKey endpoint params) st

/-- C10: `get_knbs_data` never propagates an exception (it is a total
function of the explicit failure flag): a truthy cache hit is returned
as-is; on a cache miss without failure it returns the mock data and caches
it under the computed key; whenever the try block raises it returns None;
and the mock data for every endpoint outside population/gdp/cpi/poverty is
the empty dict. -/
theorem getKnbsData_total_behavior :
    (∀ (fail : Bool) (endpoint params : String)
        (st : List (String × KData)) (d : KData),
      st.lookup (knbsCacheKey endpoint params) = some d → d ≠ [] →
      getKnbsData fail endpoint params st = (some d, st)) ∧
    (∀ (endpoint params : String) (st : List (String × KData)),
      st.lookup (knbsCacheKey endpoint params) = none →
      getKnbsData false endpoint params st =
        (some (mockKnbsData endpoint),
          (knbsCacheKey endpoint params, mockKnbsData endpoint) :: st)) ∧
    (∀ (endpoint params : String) (st : List (String × KData)),
      st.lookup (knbsCacheKey endpoint params) = none →
      getKnbsData true endpoint params st = (none, st)) ∧
    ∀ endpoint : String, endpoint ≠ "population" → endpoint ≠ "gdp" →
      endpoint ≠ "cpi" → endpoint ≠ "poverty" →
      mockKnbsData endpoint = [] := by
  refine ⟨?_, ?_, ?_, ?_⟩
  · intro fail endpoint params st d hd hne
    unfold getKnbsData
    rw [hd]
    simp [List.isEmpty_iff, hne]
  · intro endpoint params st hnone
    unfold getKnbsData
    rw [hnone]
    rfl
  · intro endpoint params st hnone
    unfold getKnbsData
    rw [hnone]
    rfl
  · intro endpoint h1 h2 h3 h4
    unfold mockKnbsData
    rw [if_neg h1, if_neg h2, if_neg h3, if_neg h4]

/-- Witness for C10 at concrete endpoints and cache states. -/
theorem getKnbsData_total_behavior_witness :
    (([(knbsCacheKey "gdp" "None", [("value", KVal.num (955/10))])]
        : List (String × KData)).lookup (knbsCacheKey "gdp" "None")
        = some [("value", KVal.num (955/10))] ∧
      ([("value", KVal.num (955/10))] : KData) ≠ [] ∧
      getKnbsData false "gdp" "None"
        [(knbsCacheKey "gdp" "None", [("value", KVal.num (955/10))])]
        = (some [("value", KVal.num (955/10))],
          [(knbsCacheKey "gdp" "None", [("value", KVal.num (955/10))])])) ∧
    (([] : List (String × KData)).lookup (knbsCacheKey "cpi" "None") = none ∧
      getKnbsData false "cpi" "None" [] =
        (some (mockKnbsData "cpi"),
          [(knbsCacheKey "cpi" "None", mockKnbsData "cpi")])) ∧
    (([] : List (String × KData)).lookup (knbsCacheKey "cpi" "None") = none ∧
      getKnbsData true "cpi" "None" [] = (none, [])) ∧
    (("inflation" : String) ≠ "population" ∧
      mockKnbsData "inflation" = []) :=
  ⟨⟨rfl, by decide,
      getKnbsData_total_behavior.1 false "gdp" "None" _ _ rfl (by decide)⟩,
    ⟨rfl, getKnbsData_total_behavior.2.1 "cpi" "None" [] rfl⟩,
    ⟨rfl, getKnbsData_total_behavior.2.2.1 "cpi" "None" [] rfl⟩,
    ⟨by decide, getKnbsData_total_behavior.2.2.2 "inflation" (by decide)
      (by decide) (by decide) (by decide)⟩⟩

end SpaceRepo
